import Mathlib

/-!
Shallow embedding of `src/main.cpp` of MagnusDownloader: a single-file
command-line RSS podcast downloader. Pure parts (regex title matching,
feed parsing over the XML document tree, sorting) are translated as
executable Lean functions; effectful parts (curl transfers, file writes,
the external `id3v2` tagger, the CLI driver) are translated as functions
from an explicit environment (recording which external operations succeed)
to the trace of observable events plus the process exit code.

External libraries are modelled at their interface:
- pugixml's `load_string` result is an `Except String XmlDoc` (error
  description, or the document tree); the nodes selected by
  `/rss/channel/item` are the `items` field of `XmlDoc`, in document
  order, each carrying the optional `title` child text and the optional
  `url` attribute of the `enclosure` child (a missing child/attribute
  yields the empty string via pugixml's null-node semantics).
- `std::regex` is instantiated in the program only with patterns of the
  shape `LIT (\d+)` under `std::regex::icase` (`LIT` a literal such as
  `MAG ` or `The Magnus Protocol `); `std::regex_search` on such a
  pattern finds the leftmost position where `LIT` matches
  case-insensitively followed by at least one digit, and the single
  capture group greedily takes the maximal digit run there. That search
  is implemented concretely below (`regexFind`).
- `std::stoi` on the capture of `\d+` returns the decimal value of the
  digit run when it fits the C++ `int` field, and throws
  `std::out_of_range` beyond `INT_MAX` (2147483647); the program never
  catches it, so the process terminates. `parseItemChecked` and
  `parseRssFeedChecked` model this abort as `.error ()`; `parseItem` and
  `parseRssFeed` are the same computation restricted to in-range input,
  used where every capture in sight is known to fit.
- `std::sort` with comparator `a.episodeNumber < b.episodeNumber`
  guarantees an ascending permutation and leaves the order of records
  with equal `episodeNumber` unspecified. `conformingSort` is the
  relation admitting exactly the conforming results; `sortEpisodes` is
  one deterministic conforming implementation (insertion sort), used
  only for properties that hold of every conforming execution.
-/

/-- One record per matched feed entry (struct `EpisodeInfo`, main.cpp:11).
`episodeNumber` is a C++ `int`, modelled as `Int`; the `std::stoi` range
check is applied where the field is populated (`parseItemChecked`), so
constructed values lie in `[-1, INT_MAX]`. -/
structure EpisodeInfo where
  name : String
  link : String
  episodeNumber : Int
deriving DecidableEq, Repr

/-- One node at `/rss/channel/item`: the text of the `title` child and the
`url` attribute of the `enclosure` child, `none` when absent. -/
structure RssItem where
  title : Option String
  enclosure : Option String
deriving DecidableEq, Repr

/-- The parsed XML document, reduced to the nodes that
`doc.select_nodes("/rss/channel/item")` yields, in document order. -/
structure XmlDoc where
  items : List RssItem
deriving DecidableEq, Repr

/-- pugixml null-node semantics: reading the text/attribute of a missing
node yields the empty string. -/
def childText (o : Option String) : String := o.getD ""

/-- ASCII lower-case code of a character, as the `icase` flag compares
characters in the C locale. -/
def lowerCode (c : Char) : Nat :=
  let n := c.toNat
  if 65 ≤ n ∧ n ≤ 90 then n + 32 else n

/-- Case-insensitive character equality (ASCII, C locale). -/
def icaseEq (a b : Char) : Bool := lowerCode a == lowerCode b

/-- Does the literal `lit` match case-insensitively at the head of `s`? -/
def icaseLeads : List Char → List Char → Bool
  | [], _ => true
  | _ :: _, [] => false
  | p :: ps, c :: cs => icaseEq p c && icaseLeads ps cs

/-- Decimal value of a digit run, as `std::stoi` reads a `\d+` capture. -/
def digitsToNat (ds : List Char) : Nat :=
  ds.foldl (fun a c => 10 * a + (c.toNat - 48)) 0

/-- Attempt the pattern `lit(\d+)` at the current position: the literal
matches case-insensitively and at least one digit follows; the capture is
the maximal digit run (greedy `\d+`). -/
def matchHere (lit : List Char) (s : List Char) : Option Nat :=
  if icaseLeads lit s then
    let ds := (s.drop lit.length).takeWhile Char.isDigit
    if ds.isEmpty then none else some (digitsToNat ds)
  else none

/-- `std::regex_search` with pattern `lit(\d+)` under `icase`: try each
position left to right, returning the value of the first capture group of
the leftmost match. -/
def regexFind (lit : List Char) : List Char → Option Nat
  | [] => none
  | c :: cs =>
    match matchHere lit (c :: cs) with
    | some n => some n
    | none => regexFind lit cs

/-- String-level wrapper: episode number extracted from a title by the
pattern `lit(\d+)` case-insensitively, `none` when the title does not
match. -/
def regexCaptureNum (lit s : String) : Option Nat :=
  regexFind lit.data s.data

/-- Observable events of one run: lines on standard output and standard
error, directory creation, opening a destination file for writing, and
invocation of an external command via `std::system`. -/
inductive Event where
  | stdoutMsg (line : String)
  | stderrMsg (line : String)
  | mkdirAll (path : String)
  | fileOpen (path : String)
  | sysCmd (cmd : String)
deriving DecidableEq, Repr

/-- Build one `EpisodeInfo` from an item node (main.cpp:34-44): missing
children read as `""`; `episodeNumber` is the captured number on a match
and the sentinel `-1` otherwise. -/
def parseItem (lit : String) (it : RssItem) : EpisodeInfo :=
  let nm := childText it.title
  let lk := childText it.enclosure
  let num : Int :=
    match regexCaptureNum lit nm with
    | some n => (n : Int)
    | none => -1
  { name := nm, link := lk, episodeNumber := num }

/-- `parseRssFeed` (main.cpp:24-49). Takes the pattern's literal part, the
result of `doc.load_string` on the feed text, and the caller's episode
vector; returns the updated vector and the standard-error events. On a
parse failure it reports the description and leaves the vector unchanged;
otherwise it appends, in document order, each item whose sentinel check
`episodeNumber != -1` passes. -/
def parseRssFeed (lit : String) (loaded : Except String XmlDoc)
    (episodes : List EpisodeInfo) : List EpisodeInfo × List Event :=
  match loaded with
  | .error desc => (episodes, [.stderrMsg ("Error parsing XML: " ++ desc)])
  | .ok doc =>
      (episodes ++ (doc.items.map (parseItem lit)).filter
        (fun e => e.episodeNumber != -1), [])

/-- The command string `setTrackNumber` builds for `std::system`
(main.cpp:58): the title and path are interpolated verbatim. -/
def tagCommand (filePath : String) (episode : EpisodeInfo) : String :=
  "id3v2 --track " ++ toString episode.episodeNumber ++ " --song \"" ++
    episode.name ++ "\" \"" ++ filePath ++ "\""

/-- `setTrackNumber` (main.cpp:57-66): runs the tagger command, then
reports success on standard output or failure on standard error according
to the tool's exit status (`tagOk` = the status was zero). -/
def setTrackNumber (filePath : String) (episode : EpisodeInfo)
    (tagOk : Bool) : List Event :=
  [.sysCmd (tagCommand filePath episode)] ++
    (if tagOk then [.stdoutMsg "Track number set successfully."]
     else [.stderrMsg "Error setting track number."])

/-- Environment for one `downloadContent` call: whether
`curl_easy_init` returns a handle, whether `fopen` on the destination
succeeds, whether `curl_easy_perform` returns `CURLE_OK` (with the error
string of `curl_easy_strerror` otherwise), and whether the tagger exits
with status zero. -/
structure DownloadEnv where
  curlInitOk : Bool
  fopenOk : Bool
  performOk : Bool
  performErr : String
  tagOk : Bool
deriving Repr

/-- `downloadContent` (main.cpp:73-105). Failed curl init or failed
`fopen` report and return early. Otherwise the destination file is
opened, a failed transfer is reported (but does not return early), and
`setTrackNumber` runs unconditionally as the last step. -/
def downloadContent (episode : EpisodeInfo) (env : DownloadEnv) :
    List Event :=
  if !env.curlInitOk then [.stderrMsg "Error initializing curl for download."]
  else
    let path := "Downloads/" ++ episode.name ++ ".mp3"
    if !env.fopenOk then [.stderrMsg "Error opening file for writing."]
    else
      [.fileOpen path] ++
        (if env.performOk then []
         else [.stderrMsg ("curl_easy_perform() failed for download: " ++
           env.performErr)]) ++
        setTrackNumber path episode env.tagOk

/-- One iteration of the display-and-download loop (main.cpp:172-178 and
191-197): three progress lines, the download, the divider. -/
def episodeEvents (dl : EpisodeInfo → DownloadEnv) (e : EpisodeInfo) :
    List Event :=
  [.stdoutMsg ("Title: " ++ e.name), .stdoutMsg ("Link: " ++ e.link),
   .stdoutMsg ("Episode Number: " ++ toString e.episodeNumber)] ++
    downloadContent e (dl e) ++ [.stdoutMsg "----------------------"]

/-- The whole display-and-download loop over a sorted episode list. -/
def processEpisodes (dl : EpisodeInfo → DownloadEnv) :
    List EpisodeInfo → List Event
  | [] => []
  | e :: rest => episodeEvents dl e ++ processEpisodes dl rest

/-- Ascending comparison on `episodeNumber`: the non-strict counterpart of
the `std::sort` comparator `a.episodeNumber < b.episodeNumber`
(main.cpp:167-169, 186-188). -/
def epLe (a b : EpisodeInfo) : Prop := a.episodeNumber ≤ b.episodeNumber

instance : DecidableRel epLe := fun a b =>
  inferInstanceAs (Decidable (a.episodeNumber ≤ b.episodeNumber))

instance : IsTotal EpisodeInfo epLe := ⟨fun a b =>
  Int.le_total a.episodeNumber b.episodeNumber⟩

instance : IsTrans EpisodeInfo epLe := ⟨fun _ _ _ h h2 => le_trans h h2⟩

instance : IsRefl EpisodeInfo epLe := ⟨fun a => le_refl a.episodeNumber⟩

/-- One deterministic implementation of the `std::sort` calls of
main.cpp:167-169 and 186-188 (insertion sort, which conforms to the
contract `conformingSort`); used only for properties that hold of every
conforming execution. -/
def sortEpisodes (l : List EpisodeInfo) : List EpisodeInfo :=
  List.insertionSort epLe l

/-- Environment for one run of `main`: `argv[1]` (or `none` when absent),
whether the top-level `curl_easy_init` succeeds, the result of the feed
fetch (`CURLE_OK` with the response body, or the curl error string), the
behaviour of pugixml's `load_string` on feed text, and the per-episode
download environment. -/
structure MainEnv where
  argv1 : Option String
  curlInitOk : Bool
  fetch : Except String String
  loadXml : String → Except String XmlDoc
  dlEnv : EpisodeInfo → DownloadEnv

/-- `main` (main.cpp:122-200): argument check, directory creation, feed
fetch, then two independent parse + sort + download passes (patterns
`MAG (\d+)` and `The Magnus Protocol (\d+)`, both case-insensitive).
Returns the process exit code and the event trace. -/
def mainRun (env : MainEnv) : Int × List Event :=
  match env.argv1 with
  | none => (1, [.stderrMsg "Add your patreon URL"])
  | some url =>
    let pre : List Event := [.stdoutMsg url, .mkdirAll "Downloads"]
    if !env.curlInitOk then (1, pre ++ [.stderrMsg "Error initializing curl."])
    else
      match env.fetch with
      | .error e =>
          (1, pre ++ [.stderrMsg ("curl_easy_perform() failed: " ++ e)])
      | .ok body =>
          let p1 := parseRssFeed "MAG " (env.loadXml body) []
          let ev1 := processEpisodes env.dlEnv (sortEpisodes p1.1)
          let p2 := parseRssFeed "The Magnus Protocol " (env.loadXml body) []
          let ev2 := processEpisodes env.dlEnv (sortEpisodes p2.1)
          (0, pre ++ p1.2 ++ ev1 ++ p2.2 ++ ev2)

/-- The items the spec says the parser keeps, written from the spec's
words for comparison with `parseRssFeed`: the matching items, in feed
order, each carrying the integer parsed from the first capture group;
non-matching items are dropped. -/
def specMatchedEpisodes (lit : String) (items : List RssItem) :
    List EpisodeInfo :=
  items.filterMap (fun it =>
    match regexCaptureNum lit (childText it.title) with
    | some n => some ⟨childText it.title, childText it.enclosure, (n : Int)⟩
    | none => none)

/-- The results the `std::sort` call may produce on `l`: the C++ standard
guarantees an ascending permutation and leaves the relative order of
records with equal `episodeNumber` unspecified, so the faithful embedding
of the sequencer is this relation rather than one fixed output. -/
def conformingSort (l out : List EpisodeInfo) : Prop :=
  out.Perm l ∧ List.Chain' epLe out

/-- `INT_MAX` of the C++ `int` that holds `episodeNumber`. -/
def cppIntMax : Nat := 2147483647

/-- Building one `EpisodeInfo` with the `std::stoi` range behaviour
(main.cpp:41): a capture whose value exceeds `INT_MAX` makes `std::stoi`
throw `std::out_of_range`; the exception is never caught, so the process
terminates (`.error ()`). On in-range input this is exactly `parseItem`. -/
def parseItemChecked (lit : String) (it : RssItem) :
    Except Unit EpisodeInfo :=
  match regexCaptureNum lit (childText it.title) with
  | some n =>
      if n ≤ cppIntMax then
        .ok ⟨childText it.title, childText it.enclosure, (n : Int)⟩
      else .error ()
  | none => .ok ⟨childText it.title, childText it.enclosure, -1⟩

/-- The item loop of `parseRssFeed` with the `std::stoi` abort modelled:
an out-of-range capture terminates the process before anything is
returned; otherwise the items passing the sentinel check are kept in
document order. -/
def parseItemsChecked (lit : String) :
    List RssItem → Except Unit (List EpisodeInfo)
  | [] => .ok []
  | it :: rest =>
    match parseItemChecked lit it with
    | .error e => .error e
    | .ok ep =>
      match parseItemsChecked lit rest with
      | .error e => .error e
      | .ok eps => .ok (if ep.episodeNumber != -1 then ep :: eps else eps)

/-- `parseRssFeed` with the `std::stoi` abort modelled: `.error ()` is the
uncaught `std::out_of_range` (process termination); `.ok` carries the
updated vector and the standard-error events, exactly as `parseRssFeed`
does. -/
def parseRssFeedChecked (lit : String) (loaded : Except String XmlDoc)
    (episodes : List EpisodeInfo) :
    Except Unit (List EpisodeInfo × List Event) :=
  match loaded with
  | .error desc => .ok (episodes, [.stderrMsg ("Error parsing XML: " ++ desc)])
  | .ok doc =>
      match parseItemsChecked lit doc.items with
      | .error e => .error e
      | .ok eps => .ok (episodes ++ eps, [])

theorem parseItem_eq_of_match (lit : String) (it : RssItem) (n : Nat)
    (h : regexCaptureNum lit (childText it.title) = some n) :
    parseItem lit it = ⟨childText it.title, childText it.enclosure, (n : Int)⟩ := by
  simp [parseItem, h]

theorem parseItem_eq_of_nomatch (lit : String) (it : RssItem)
    (h : regexCaptureNum lit (childText it.title) = none) :
    parseItem lit it = ⟨childText it.title, childText it.enclosure, -1⟩ := by
  simp [parseItem, h]

theorem matched_filter_eq (lit : String) :
    ∀ items : List RssItem,
      (items.map (parseItem lit)).filter (fun e => e.episodeNumber != -1)
        = specMatchedEpisodes lit items
  | [] => rfl
  | it :: rest => by
    rw [List.map_cons, List.filter_cons]
    cases h : regexCaptureNum lit (childText it.title) with
    | none =>
        rw [parseItem_eq_of_nomatch lit it h]
        simp only [specMatchedEpisodes, List.filterMap_cons, h]
        have : ((⟨childText it.title, childText it.enclosure, -1⟩ :
            EpisodeInfo).episodeNumber != -1) = false := rfl
        rw [this, if_neg (by simp)]
        exact matched_filter_eq lit rest
    | some n =>
        rw [parseItem_eq_of_match lit it n h]
        simp only [specMatchedEpisodes, List.filterMap_cons, h]
        have hne : ((⟨childText it.title, childText it.enclosure, (n : Int)⟩ :
            EpisodeInfo).episodeNumber != -1) = true := by
          simp only [bne_iff_ne, ne_eq]
          omega
        rw [if_pos hne]
        exact congrArg _ (matched_filter_eq lit rest)

theorem specMatched_length (lit : String) :
    ∀ items : List RssItem,
      (specMatchedEpisodes lit items).length =
        (items.filter
          (fun it => (regexCaptureNum lit (childText it.title)).isSome)).length
  | [] => rfl
  | it :: rest => by
    rw [List.filter_cons]
    cases h : regexCaptureNum lit (childText it.title) with
    | none =>
        simp only [specMatchedEpisodes, List.filterMap_cons, h, Option.isSome_none]
        rw [if_neg (by simp)]
        exact specMatched_length lit rest
    | some n =>
        simp only [specMatchedEpisodes, List.filterMap_cons, h, Option.isSome_some,
          if_true, List.length_cons]
        exact congrArg Nat.succ (specMatched_length lit rest)

theorem specMatched_nonneg (lit : String) :
    ∀ items : List RssItem, ∀ e ∈ specMatchedEpisodes lit items,
      0 ≤ e.episodeNumber ∧ regexCaptureNum lit e.name = some e.episodeNumber.toNat
  | [] => by intro e he; cases he
  | it :: rest => by
    intro e he
    cases h : regexCaptureNum lit (childText it.title) with
    | none =>
        rw [specMatchedEpisodes, List.filterMap_cons, h] at he
        exact specMatched_nonneg lit rest e he
    | some n =>
        rw [specMatchedEpisodes, List.filterMap_cons, h] at he
        rcases List.mem_cons.mp he with rfl | hmem
        · exact ⟨Int.natCast_nonneg n, by rw [Int.toNat_natCast]; exact h⟩
        · exact specMatched_nonneg lit rest e hmem

theorem parseItemChecked_ok (lit : String) (it : RssItem)
    (hb : (regexCaptureNum lit (childText it.title)).getD 0 ≤ cppIntMax) :
    parseItemChecked lit it = .ok (parseItem lit it) := by
  cases h : regexCaptureNum lit (childText it.title) with
  | none => simp [parseItemChecked, parseItem, h]
  | some n =>
      rw [h] at hb
      have hb2 : n ≤ cppIntMax := hb
      simp [parseItemChecked, parseItem, h, hb2]

theorem parseItemsChecked_ok (lit : String) :
    ∀ items : List RssItem,
      (∀ it ∈ items,
        (regexCaptureNum lit (childText it.title)).getD 0 ≤ cppIntMax) →
      parseItemsChecked lit items =
        .ok ((items.map (parseItem lit)).filter (fun e => e.episodeNumber != -1))
  | [], _ => rfl
  | it :: rest, hb => by
    rw [parseItemsChecked,
      parseItemChecked_ok lit it (hb it (List.mem_cons_self it rest)),
      parseItemsChecked_ok lit rest
        (fun x hx => hb x (List.mem_cons_of_mem it hx)),
      List.map_cons, List.filter_cons]

theorem specMatched_le (lit : String) :
    ∀ items : List RssItem,
      (∀ it ∈ items,
        (regexCaptureNum lit (childText it.title)).getD 0 ≤ cppIntMax) →
      ∀ e ∈ specMatchedEpisodes lit items, e.episodeNumber ≤ (cppIntMax : Int)
  | [] => fun _ e he => absurd he (List.not_mem_nil e)
  | it :: rest => fun hb e he => by
    cases h : regexCaptureNum lit (childText it.title) with
    | none =>
        rw [specMatchedEpisodes, List.filterMap_cons, h] at he
        exact specMatched_le lit rest
          (fun x hx => hb x (List.mem_cons_of_mem it hx)) e he
    | some n =>
        rw [specMatchedEpisodes, List.filterMap_cons, h] at he
        rcases List.mem_cons.mp he with rfl | hmem
        · have hn := hb it (List.mem_cons_self it rest)
          rw [h] at hn
          show (n : Int) ≤ (cppIntMax : Int)
          exact_mod_cast hn
        · exact specMatched_le lit rest
            (fun x hx => hb x (List.mem_cons_of_mem it hx)) e hmem

/-- Claim C1 is false as stated universally: at a feed item titled
`MAG 9999999999` (a matching title whose capture exceeds `INT_MAX`),
`std::stoi` (main.cpp:41) throws an uncaught `std::out_of_range` and the
process terminates, so the parser returns no records instead of the one
matching record the claim promises. -/
theorem parseRssFeed_overflow_aborts :
    regexCaptureNum "MAG " "MAG 9999999999" = some 9999999999
    ∧ parseRssFeedChecked "MAG "
        (Except.ok ⟨[⟨some "MAG 9999999999", some "u"⟩]⟩) [] =
          Except.error () :=
  ⟨rfl, rfl⟩

/-- Claim C1 (amended): for every feed document all of whose captured
episode numbers fit a C++ `int` (at most `INT_MAX` = 2147483647), the
parser returns exactly the N matching items, in feed order, appended to
the caller's vector, each with `episodeNumber` between 0 and `INT_MAX`
equal to the integer parsed from the first capture group of its title;
every non-matching item is excluded. When some matching capture exceeds
`INT_MAX`, `std::stoi` throws uncaught `std::out_of_range` and the
process terminates with no records returned. -/
theorem parseRssFeed_exactly_matches_inrange (lit : String)
    (items : List RssItem) (es : List EpisodeInfo)
    (hb : ∀ it ∈ items,
      (regexCaptureNum lit (childText it.title)).getD 0 ≤ cppIntMax) :
    parseRssFeedChecked lit (Except.ok ⟨items⟩) es
        = Except.ok (es ++ specMatchedEpisodes lit items, [])
    ∧ (specMatchedEpisodes lit items).length =
        (items.filter
          (fun it => (regexCaptureNum lit (childText it.title)).isSome)).length
    ∧ ∀ e ∈ specMatchedEpisodes lit items,
        0 ≤ e.episodeNumber ∧ e.episodeNumber ≤ (cppIntMax : Int)
          ∧ regexCaptureNum lit e.name = some e.episodeNumber.toNat := by
  refine ⟨?_, specMatched_length lit items, fun e he => ?_⟩
  · rw [parseRssFeedChecked, parseItemsChecked_ok lit items hb,
      matched_filter_eq]
  · obtain ⟨h0, hcap⟩ := specMatched_nonneg lit items e he
    exact ⟨h0, specMatched_le lit items hb e he, hcap⟩

theorem parseRssFeed_exactly_matches_inrange_witness :
    parseRssFeedChecked "MAG " (Except.ok ⟨[⟨some "MAG 3", some "u2"⟩,
        ⟨some "Trailer", none⟩]⟩) []
      = Except.ok ([] ++ specMatchedEpisodes "MAG " [⟨some "MAG 3", some "u2"⟩,
          ⟨some "Trailer", none⟩], [])
    ∧ 0 ≤ (⟨"MAG 3", "u2", 3⟩ : EpisodeInfo).episodeNumber :=
  ⟨(parseRssFeed_exactly_matches_inrange "MAG "
      [⟨some "MAG 3", some "u2"⟩, ⟨some "Trailer", none⟩] [] (by decide)).1,
   ((parseRssFeed_exactly_matches_inrange "MAG "
      [⟨some "MAG 3", some "u2"⟩, ⟨some "Trailer", none⟩] [] (by decide)).2.2
      ⟨"MAG 3", "u2", 3⟩ (by decide)).1⟩

/-- Claim C3: the sequencer returns a permutation of its input in which
every adjacent pair is ascending by `episodeNumber`; it is a total pure
function with no failure modes, and no tie-break is required among equal
episode numbers. -/
theorem sortEpisodes_sorts (l : List EpisodeInfo) :
    (sortEpisodes l).Perm l ∧ List.Chain' epLe (sortEpisodes l) :=
  ⟨List.perm_insertionSort epLe l,
   List.chain'_iff_pairwise.mpr (List.sorted_insertionSort epLe l)⟩

theorem sorted_perm_nodupKeys_eq :
    ∀ l out : List EpisodeInfo,
      (l.map EpisodeInfo.episodeNumber).Nodup →
      l.Pairwise epLe → out.Pairwise epLe → out.Perm l → out = l
  | [], out, _, _, _, hp => hp.eq_nil
  | a :: t, [], _, _, _, hp => absurd hp.symm.eq_nil (List.cons_ne_nil a t)
  | a :: t, b :: u, hnd, hl, hout, hp => by
    have hba : b = a := by
      rcases List.mem_cons.mp (hp.subset (List.mem_cons_self b u)) with hb | hbt
      · exact hb
      rcases List.mem_cons.mp (hp.symm.subset (List.mem_cons_self a t))
        with ha | hau
      · exact ha.symm
      exfalso
      have h1 : a.episodeNumber ≤ b.episodeNumber :=
        (List.pairwise_cons.mp hl).1 b hbt
      have h2 : b.episodeNumber ≤ a.episodeNumber :=
        (List.pairwise_cons.mp hout).1 a hau
      have hkey : a.episodeNumber = b.episodeNumber := le_antisymm h1 h2
      have hmem : a.episodeNumber ∈ t.map EpisodeInfo.episodeNumber := by
        rw [hkey]
        exact List.mem_map_of_mem EpisodeInfo.episodeNumber hbt
      rw [List.map_cons] at hnd
      exact (List.nodup_cons.mp hnd).1 hmem
    subst hba
    have htail : u = t :=
      sorted_perm_nodupKeys_eq t u
        (by rw [List.map_cons] at hnd; exact (List.nodup_cons.mp hnd).2)
        (List.pairwise_cons.mp hl).2 (List.pairwise_cons.mp hout).2
        hp.cons_inv
    rw [htail]

/-- Claim C8 is not guaranteed by the code: `std::sort` leaves the order of
records with equal `episodeNumber` unspecified, so on an already-sorted
list holding two records with equal episode number (both titles really
parse to 5) a conforming execution of the sequencer may return the swapped
list, which differs from the input; idempotence "including among records
with equal episode numbers" therefore fails. -/
theorem sorted_ties_conforming_change :
    List.Chain' epLe [⟨"MAG 5", "u", 5⟩, ⟨"mag 5 bonus", "v", 5⟩]
    ∧ conformingSort [⟨"MAG 5", "u", 5⟩, ⟨"mag 5 bonus", "v", 5⟩]
        [⟨"mag 5 bonus", "v", 5⟩, ⟨"MAG 5", "u", 5⟩]
    ∧ [(⟨"mag 5 bonus", "v", 5⟩ : EpisodeInfo), ⟨"MAG 5", "u", 5⟩]
        ≠ [⟨"MAG 5", "u", 5⟩, ⟨"mag 5 bonus", "v", 5⟩] :=
  ⟨List.chain'_iff_pairwise.mpr (by decide),
   ⟨List.Perm.swap _ _ _, List.chain'_iff_pairwise.mpr (by decide)⟩,
   by decide⟩

/-- Claim C8 (amended): the sequencer yields a sorted permutation; when
the input's episode numbers are pairwise distinct, every conforming
execution applied to an already-sorted list returns it unchanged, and a
second conforming sort applied to a first sort's output returns that
output unchanged (sorting twice yields the same order as sorting once).
Among records with equal episode numbers the order is unspecified by
`std::sort` and need not be preserved. -/
theorem conformingSort_noties_idempotent (l out out₂ : List EpisodeInfo)
    (hnd : (l.map EpisodeInfo.episodeNumber).Nodup) :
    (List.Chain' epLe l → conformingSort l out → out = l)
    ∧ (conformingSort l out → conformingSort out out₂ → out₂ = out) := by
  constructor
  · intro hs hc
    exact sorted_perm_nodupKeys_eq l out hnd (List.chain'_iff_pairwise.mp hs)
      (List.chain'_iff_pairwise.mp hc.2) hc.1
  · intro hc hc2
    have hnd2 : (out.map EpisodeInfo.episodeNumber).Nodup :=
      ((hc.1.map EpisodeInfo.episodeNumber).nodup_iff).mpr hnd
    exact sorted_perm_nodupKeys_eq out out₂ hnd2
      (List.chain'_iff_pairwise.mp hc.2)
      (List.chain'_iff_pairwise.mp hc2.2) hc2.1

theorem conformingSort_noties_idempotent_witness :
    (([⟨"a", "", 1⟩, ⟨"b", "", 2⟩] : List EpisodeInfo).map
        EpisodeInfo.episodeNumber).Nodup
    ∧ ([⟨"a", "", 1⟩, ⟨"b", "", 2⟩] : List EpisodeInfo)
        = [⟨"a", "", 1⟩, ⟨"b", "", 2⟩] :=
  ⟨by decide,
   (conformingSort_noties_idempotent [⟨"a", "", 1⟩, ⟨"b", "", 2⟩]
      [⟨"a", "", 1⟩, ⟨"b", "", 2⟩] [⟨"a", "", 1⟩, ⟨"b", "", 2⟩]
      (by decide)).1
     (List.chain'_iff_pairwise.mpr (by decide))
     ⟨List.Perm.refl ([⟨"a", "", 1⟩, ⟨"b", "", 2⟩] : List EpisodeInfo),
      List.chain'_iff_pairwise.mpr (by decide)⟩⟩

/-- Claim C4: on input that is not well-formed XML, `parseRssFeed` reports
the parse-failure description on standard error, leaves the caller's
episode list unchanged (no records added), and returns normally (it is a
total function, so no unrecoverable error or process termination). -/
theorem parseRssFeed_malformed (lit desc : String) (es : List EpisodeInfo) :
    parseRssFeed lit (Except.error desc) es
      = (es, [Event.stderrMsg ("Error parsing XML: " ++ desc)]) := rfl

/-- Claim C6: the title `mag 5 bonus` matches the case-insensitive pattern
`MAG (\d+)` without covering the whole title, and the parser assigns it
episode number 5. -/
theorem mag5bonus_matches :
    regexCaptureNum "MAG " "mag 5 bonus" = some 5
    ∧ (parseRssFeed "MAG " (Except.ok ⟨[⟨some "mag 5 bonus", some "u"⟩]⟩) []).1
        = [⟨"mag 5 bonus", "u", 5⟩] := by decide

/-- Claim C10 is false as stated universally: an item whose title matches
the pattern but whose capture `3000000000` exceeds `INT_MAX` makes
`std::stoi` throw an uncaught `std::out_of_range`; the process terminates
instead of including the record with an empty link. -/
theorem parse_missing_enclosure_overflow :
    regexCaptureNum "MAG " "MAG 3000000000" = some 3000000000
    ∧ parseRssFeedChecked "MAG "
        (Except.ok ⟨[⟨some "MAG 3000000000", none⟩]⟩) [] = Except.error () :=
  ⟨rfl, rfl⟩

/-- Claim C10 (amended): for every item whose title matches the pattern
with a captured number that fits a C++ `int`, a missing `enclosure` child
(or a missing `url` attribute on it) does not make the parser fail: the
item is still included, with `link` equal to the empty string; a missing
`title` child likewise reads as the empty string. For a capture beyond
`INT_MAX`, the process instead aborts inside `std::stoi`. -/
theorem parse_missing_children_inrange (lit t : String) (n : Nat)
    (h : regexCaptureNum lit t = some n) (hle : n ≤ cppIntMax) :
    parseRssFeedChecked lit (Except.ok ⟨[⟨some t, none⟩]⟩) []
        = Except.ok ([⟨t, "", (n : Int)⟩], [])
    ∧ ∀ enc : Option String,
        parseItemChecked lit ⟨none, enc⟩ = parseItemChecked lit ⟨some "", enc⟩ := by
  refine ⟨?_, fun enc => rfl⟩
  have h1 : parseItemChecked lit ⟨some t, none⟩ = .ok ⟨t, "", (n : Int)⟩ := by
    simp [parseItemChecked, childText, h, hle]
  have hne : (((n : Int)) != -1) = true := by
    simp only [bne_iff_ne, ne_eq]
    omega
  have h2 : parseItemsChecked lit [⟨some t, none⟩] = .ok [⟨t, "", (n : Int)⟩] := by
    simp only [parseItemsChecked, h1, hne, if_true]
  rw [parseRssFeedChecked, h2]
  rfl

theorem parse_missing_children_inrange_witness :
    parseRssFeedChecked "MAG " (Except.ok ⟨[⟨some "MAG 7", none⟩]⟩) []
        = Except.ok ([⟨"MAG 7", "", 7⟩], [])
    ∧ parseItemChecked "MAG " ⟨none, some "u"⟩
        = parseItemChecked "MAG " ⟨some "", some "u"⟩ :=
  ⟨(parse_missing_children_inrange "MAG " "MAG 7" 7 rfl (by decide)).1,
   (parse_missing_children_inrange "MAG " "MAG 7" 7 rfl (by decide)).2 (some "u")⟩

/-- Claim C2 is false on the code: with curl init and `fopen` succeeding
but the HTTP transfer failing, `downloadContent` reports the failure and
nevertheless still invokes the tagger command for that episode
(main.cpp:104 runs `setTrackNumber` unconditionally after the transfer
attempt). -/
theorem downloadContent_tags_after_failure :
    Event.stderrMsg ("curl_easy_perform() failed for download: " ++ "timeout")
        ∈ downloadContent ⟨"MAG 1", "u", 1⟩ ⟨true, true, false, "timeout", true⟩
    ∧ Event.sysCmd (tagCommand "Downloads/MAG 1.mp3" ⟨"MAG 1", "u", 1⟩)
        ∈ downloadContent ⟨"MAG 1", "u", 1⟩ ⟨true, true, false, "timeout", true⟩ := by
  decide

/-- Claim C2 (amended): when the HTTP transfer of the enclosure fails the
failure is reported to the operator and processing continues with the next
episode, but the tagger is still invoked: it runs as the final step of
every download attempt in which the destination file was opened, whether
or not the transfer succeeded. -/
theorem downloadContent_amended (ep : EpisodeInfo) (env : DownloadEnv)
    (hc : env.curlInitOk = true) (hf : env.fopenOk = true) :
    (env.performOk = false →
      Event.stderrMsg ("curl_easy_perform() failed for download: " ++
          env.performErr) ∈ downloadContent ep env)
    ∧ (∃ pre : List Event, downloadContent ep env =
        pre ++ setTrackNumber ("Downloads/" ++ ep.name ++ ".mp3") ep env.tagOk)
    ∧ ∀ (dl : EpisodeInfo → DownloadEnv) (rest : List EpisodeInfo),
        processEpisodes dl (ep :: rest)
          = episodeEvents dl ep ++ processEpisodes dl rest := by
  refine ⟨fun hp => ?_, ?_, fun dl rest => rfl⟩
  · simp [downloadContent, hc, hf, hp]
  · refine ⟨[Event.fileOpen ("Downloads/" ++ ep.name ++ ".mp3")] ++
      (if env.performOk then [] else
        [Event.stderrMsg ("curl_easy_perform() failed for download: " ++
          env.performErr)]), ?_⟩
    simp [downloadContent, hc, hf, List.append_assoc]

theorem downloadContent_amended_witness :
    Event.stderrMsg ("curl_easy_perform() failed for download: " ++ "x")
      ∈ downloadContent ⟨"E", "u", 2⟩ ⟨true, true, false, "x", true⟩
    ∧ ∃ pre : List Event, downloadContent ⟨"E", "u", 2⟩ ⟨true, true, false, "x", true⟩
        = pre ++ setTrackNumber ("Downloads/" ++ "E" ++ ".mp3") ⟨"E", "u", 2⟩ true :=
  ⟨(downloadContent_amended ⟨"E", "u", 2⟩ ⟨true, true, false, "x", true⟩ rfl rfl).1 rfl,
   (downloadContent_amended ⟨"E", "u", 2⟩ ⟨true, true, false, "x", true⟩ rfl rfl).2.1⟩

/-- Claim C7: when the destination file cannot be opened for writing, the
failure is reported, the download for that episode aborts without invoking
the tagger (no `sysCmd` event), and the loop still processes the
subsequent episodes. -/
theorem downloadContent_fopen_fails (ep : EpisodeInfo) (env : DownloadEnv)
    (hc : env.curlInitOk = true) (hf : env.fopenOk = false) :
    downloadContent ep env = [Event.stderrMsg "Error opening file for writing."]
    ∧ (∀ c : String, Event.sysCmd c ∉ downloadContent ep env)
    ∧ ∀ (dl : EpisodeInfo → DownloadEnv) (rest : List EpisodeInfo),
        processEpisodes dl (ep :: rest)
          = episodeEvents dl ep ++ processEpisodes dl rest := by
  have h1 : downloadContent ep env
      = [Event.stderrMsg "Error opening file for writing."] := by
    simp [downloadContent, hc, hf]
  refine ⟨h1, fun c hmem => ?_, fun dl rest => rfl⟩
  rw [h1] at hmem
  simp at hmem

theorem downloadContent_fopen_fails_witness :
    downloadContent ⟨"E", "u", 2⟩ ⟨true, false, true, "", true⟩
      = [Event.stderrMsg "Error opening file for writing."]
    ∧ Event.sysCmd (tagCommand "Downloads/E.mp3" ⟨"E", "u", 2⟩)
        ∉ downloadContent ⟨"E", "u", 2⟩ ⟨true, false, true, "", true⟩ :=
  ⟨(downloadContent_fopen_fails ⟨"E", "u", 2⟩ ⟨true, false, true, "", true⟩ rfl rfl).1,
   (downloadContent_fopen_fails ⟨"E", "u", 2⟩ ⟨true, false, true, "", true⟩ rfl rfl).2.1
     (tagCommand "Downloads/E.mp3" ⟨"E", "u", 2⟩)⟩

/-- Claim C5: the program takes one positional argument: when it is
missing, a usage hint goes to standard error and the exit code is 1; when
the initial feed fetch fails, an error goes to standard error and the exit
code is 1; when both episode series are processed to completion, the exit
code is 0. -/
theorem mainRun_cli_exit_codes (env : MainEnv) :
    (env.argv1 = none →
      mainRun env = (1, [Event.stderrMsg "Add your patreon URL"]))
    ∧ (∀ url e, env.argv1 = some url → env.curlInitOk = true →
        env.fetch = Except.error e →
        (mainRun env).1 = 1 ∧
          Event.stderrMsg ("curl_easy_perform() failed: " ++ e) ∈ (mainRun env).2)
    ∧ ∀ url body, env.argv1 = some url → env.curlInitOk = true →
        env.fetch = Except.ok body → (mainRun env).1 = 0 := by
  refine ⟨fun h => by simp [mainRun, h],
    fun url e h1 h2 h3 => ?_, fun url body h1 h2 h3 => by simp [mainRun, h1, h2, h3]⟩
  rw [mainRun, h1, h2, h3]
  simp

theorem mainRun_cli_exit_codes_witness :
    mainRun ⟨none, true, Except.error "x", fun _ => Except.error "x",
        fun _ => ⟨true, true, true, "", true⟩⟩
      = (1, [Event.stderrMsg "Add your patreon URL"])
    ∧ (mainRun ⟨some "u", true, Except.error "boom", fun _ => Except.error "x",
        fun _ => ⟨true, true, true, "", true⟩⟩).1 = 1
    ∧ (mainRun ⟨some "u", true, Except.ok "feed", fun _ => Except.error "bad",
        fun _ => ⟨true, true, true, "", true⟩⟩).1 = 0 :=
  ⟨(mainRun_cli_exit_codes ⟨none, true, Except.error "x", fun _ => Except.error "x",
      fun _ => ⟨true, true, true, "", true⟩⟩).1 rfl,
   ((mainRun_cli_exit_codes ⟨some "u", true, Except.error "boom",
      fun _ => Except.error "x", fun _ => ⟨true, true, true, "", true⟩⟩).2.1
      "u" "boom" rfl rfl rfl).1,
   (mainRun_cli_exit_codes ⟨some "u", true, Except.ok "feed",
      fun _ => Except.error "bad", fun _ => ⟨true, true, true, "", true⟩⟩).2.2
      "u" "feed" rfl rfl rfl⟩

/-- Claim C9: on a feed containing items of both series, the two
independent parse+sequence passes with the patterns `MAG (\d+)` and
`The Magnus Protocol (\d+)` (case-insensitive) yield two independent,
correctly ordered lists with no cross-contamination: no episode appears in
both lists and each list contains only titles matching its own series
pattern and not the other. -/
theorem two_series_no_cross_contamination :
    sortEpisodes (parseRssFeed "MAG " (Except.ok
        ⟨[⟨some "The Magnus Protocol 2", some "u1"⟩, ⟨some "MAG 3", some "u2"⟩,
          ⟨some "The Magnus Protocol 1", some "u3"⟩, ⟨some "Trailer", some "u4"⟩,
          ⟨some "MAG 1", some "u5"⟩]⟩) []).1
      = [⟨"MAG 1", "u5", 1⟩, ⟨"MAG 3", "u2", 3⟩]
    ∧ sortEpisodes (parseRssFeed "The Magnus Protocol " (Except.ok
        ⟨[⟨some "The Magnus Protocol 2", some "u1"⟩, ⟨some "MAG 3", some "u2"⟩,
          ⟨some "The Magnus Protocol 1", some "u3"⟩, ⟨some "Trailer", some "u4"⟩,
          ⟨some "MAG 1", some "u5"⟩]⟩) []).1
      = [⟨"The Magnus Protocol 1", "u3", 1⟩, ⟨"The Magnus Protocol 2", "u1", 2⟩]
    ∧ (∀ e ∈ ([⟨"MAG 1", "u5", 1⟩, ⟨"MAG 3", "u2", 3⟩] : List EpisodeInfo),
        e ∉ ([⟨"The Magnus Protocol 1", "u3", 1⟩,
              ⟨"The Magnus Protocol 2", "u1", 2⟩] : List EpisodeInfo))
    ∧ (∀ e ∈ ([⟨"MAG 1", "u5", 1⟩, ⟨"MAG 3", "u2", 3⟩] : List EpisodeInfo),
        (regexCaptureNum "MAG " e.name).isSome
          ∧ regexCaptureNum "The Magnus Protocol " e.name = none)
    ∧ (∀ e ∈ ([⟨"The Magnus Protocol 1", "u3", 1⟩,
              ⟨"The Magnus Protocol 2", "u1", 2⟩] : List EpisodeInfo),
        (regexCaptureNum "The Magnus Protocol " e.name).isSome
          ∧ regexCaptureNum "MAG " e.name = none)
    ∧ List.Chain' epLe [⟨"MAG 1", "u5", 1⟩, ⟨"MAG 3", "u2", 3⟩]
    ∧ List.Chain' epLe [⟨"The Magnus Protocol 1", "u3", 1⟩,
        ⟨"The Magnus Protocol 2", "u1", 2⟩] :=
  ⟨by decide, by decide, by decide, by decide, by decide,
   List.chain'_iff_pairwise.mpr (by decide),
   List.chain'_iff_pairwise.mpr (by decide)⟩
